import Mathlib

/-!
Balloon agent: registry, page remapping, GC fixup, the agent worker and the
agent options.

A shallow embedding of `src/main/native/balloonagent.cpp`.

* The file-level statics (`do_balloon_mapping`, `failed`, `interrupted`,
  `balloons`, `gcNotifyQueue`, `page_size`) are the fields of `AgentState`.
* The JVM is the environment: the JNI global-reference table is the field
  `globalRefs`, and what the JVM answers to a native call (the new global
  reference, the object size, the raw addresses read through the reference) is
  an explicit argument of the operation.
* `munmap`/`mmap` are recorded, one `PageOp` per remapped page, in the trace
  `remaps`; the system calls are taken to succeed (on failure the source calls
  `fatal_error`).
* `long` arithmetic is exact integer arithmetic; a conversion to `int` is
  `toInt32`; C's `/` and `%` are `Int.tdiv` and `Int.tmod`.
* The agent monitor serialises the operations, so each operation is one
  state transformer.
* A C string is the list of its characters up to the terminating NUL, a null
  pointer is `none`, and a pointer into a string is an offset from its start.
-/

namespace Balloon

/-! ## Data model -/

/-- Events notified to the agent thread (`GCEvent`, lines 80-84). -/
inductive GCEvent where
  | Init
  | End
  | Terminate
  deriving DecidableEq, Repr

/-- Details of one registered balloon (`BalloonType`, lines 101-107):
`globalRef` is the JNI global reference, `rawRef` the cached raw address of the
object, `offset` the distance from `rawRef` to the array data, `size` the
object size reported by `GetObjectSize`. -/
structure BalloonType where
  globalRef : Nat
  rawRef : Int
  offset : Int
  size : Int
  deriving DecidableEq, Repr

/-- One page remap, a `munmap` followed by an `mmap` at the same address:
`zeroMap` is the pair of lines 275/280 (shared mapping of the zero file),
`anonMap` the pair of lines 315/320 (private anonymous mapping). -/
inductive PageOp where
  | zeroMap (addr : Int)
  | anonMap (addr : Int)
  deriving DecidableEq, Repr

/-- The address of the page an operation remaps. -/
def PageOp.addr : PageOp → Int
  | PageOp.zeroMap a => a
  | PageOp.anonMap a => a

/-- The statics of the agent (lines 60-123) together with the two pieces of
the environment the operations act on: the live JNI global references and the
trace of page remaps issued so far. -/
structure AgentState where
  do_balloon_mapping : Bool
  page_size : Int
  failed : Bool
  interrupted : Bool
  balloons : List BalloonType
  gcNotifyQueue : List GCEvent
  globalRefs : List Nat
  remaps : List PageOp
  deriving DecidableEq, Repr

/-- Conversion of an integer value to C `int` (32 bits, two's complement). -/
def toInt32 (x : Int) : Int :=
  (x + 2147483648) % 4294967296 - 2147483648

/-! ## Page remapping (`unmap_balloon`, `map_balloon`) -/

/-- Lines 262-269 of `unmap_balloon`, repeated as lines 301-309 of
`map_balloon`: the start address of the first page and the number of pages.
The result is the pair `(paddr, len)` as it stands before the loop. -/
def alignedRange (page_size : Int) (balloon : BalloonType) : Int × Int :=
  let paddr := balloon.rawRef + balloon.offset
  let rem := Int.tmod paddr page_size
  let len := toInt32 (balloon.size - balloon.offset)
  let paddr := if rem ≠ 0 then paddr + (page_size - rem) else paddr
  let len := if rem ≠ 0 then len + toInt32 (rem - page_size) else len
  let len := toInt32 (Int.tdiv len page_size)
  (paddr, len)

/-- The loop of lines 274-291 (and 314-331): `n` iterations, each remapping
the page at `paddr2` with `op` and then advancing `paddr2` by one page. -/
def remapLoop (op : Int → PageOp) (page_size : Int) : Nat → Int → List PageOp
  | 0, _ => []
  | n + 1, paddr2 => op paddr2 :: remapLoop op page_size n (paddr2 + page_size)

/-- Remap a balloon's array data area to the zero file (`unmap_balloon`,
lines 260-294): the page remaps it issues, in order. -/
def unmap_balloon (page_size : Int) (balloon : BalloonType) : List PageOp :=
  let r := alignedRange page_size balloon
  remapLoop PageOp.zeroMap page_size r.2.toNat r.1

/-- Remap a balloon's array data area to anonymous memory (`map_balloon`,
lines 299-334): the page remaps it issues, in order. The page size it queries
with `sysconf` is the one `vmInit` stored in `page_size`. -/
def map_balloon (page_size : Int) (balloon : BalloonType) : List PageOp :=
  let r := alignedRange page_size balloon
  remapLoop PageOp.anonMap page_size r.2.toNat r.1

/-- How a page is backed: by private anonymous memory or by the shared zero
file. -/
inductive Backing where
  | anon
  | zero
  deriving DecidableEq, Repr

/-- The backing of page `p` after one remap. -/
def applyOp (p : Int) (b : Backing) : PageOp → Backing
  | PageOp.zeroMap a => if a = p then Backing.zero else b
  | PageOp.anonMap a => if a = p then Backing.anon else b

/-- The backing of page `p` after the remaps `ops`, applied in order to a
memory whose pages are backed as `before` says. -/
def pageBacking (before : Int → Backing) (ops : List PageOp) (p : Int) : Backing :=
  ops.foldl (applyOp p) (before p)

/-! ## Registry (`registerBalloon`, `unregister_balloon`) -/

/-- What the JVM answers during one call of `registerBalloon`: the global
reference made by `NewGlobalRef` (line 348), the object size (line 349), the
data address from `GetPrimitiveArrayCritical` (line 351), and the raw address
read through the reference before the monitor is entered (line 352) and while
it is held (line 362). -/
structure RegisterCall where
  newGlobalRef : Nat
  objectSize : Int
  rawarray : Int
  rawRefBefore : Int
  rawRefLocked : Int
  deriving DecidableEq, Repr

/-- Native method `registerBalloon` (lines 344-373): the returned flag and the
state after the call. -/
def registerBalloon (s : AgentState) (c : RegisterCall) : Bool × AgentState :=
  let balloon : BalloonType :=
    { globalRef := c.newGlobalRef
      rawRef := c.rawRefBefore
      offset := toInt32 (c.rawarray - c.rawRefBefore)
      size := c.objectSize }
  let s := { s with globalRefs := c.newGlobalRef :: s.globalRefs }
  let result := s.interrupted
  if s.interrupted = false then
    let balloon :=
      if s.do_balloon_mapping then { balloon with rawRef := c.rawRefLocked } else balloon
    let s := { s with balloons := balloon :: s.balloons }
    let s :=
      if s.do_balloon_mapping then
        { s with remaps := s.remaps ++ unmap_balloon s.page_size balloon }
      else s
    (result, s)
  else
    (result, s)

/-- Function `unregister_balloon` (lines 385-406): the returned flag and the
state after the call. With an empty registry the function returns no value,
which is `none`. -/
def unregister_balloon (s : AgentState) : Option (Bool × AgentState) :=
  match s.balloons with
  | [] => none
  | balloon :: rest =>
    let result := s.interrupted
    let s :=
      if s.interrupted = false then
        let s := { s with balloons := rest }
        if s.do_balloon_mapping then
          { s with remaps := s.remaps ++ map_balloon s.page_size balloon }
        else s
      else s
    let s := { s with globalRefs := s.globalRefs.erase balloon.globalRef }
    some (result, s)

/-! ## GC-finish callback (`endGC`) -/

/-- The loop of lines 530-546 over the registry: `heap` gives the raw address
currently read through each global reference. Returns the updated entries and
the page remaps issued, in order. -/
def fixupLoop (do_balloon_mapping : Bool) (page_size : Int) (heap : Nat → Int) :
    List BalloonType → List BalloonType × List PageOp
  | [] => ([], [])
  | balloon :: rest =>
    let oldRawRef := balloon.rawRef
    let rawRef := heap balloon.globalRef
    let r := fixupLoop do_balloon_mapping page_size heap rest
    if oldRawRef ≠ rawRef then
      let ops1 := if do_balloon_mapping then map_balloon page_size balloon else []
      let balloon := { balloon with rawRef := rawRef }
      let ops2 := if do_balloon_mapping then unmap_balloon page_size balloon else []
      (balloon :: r.1, ops1 ++ ops2 ++ r.2)
    else
      (balloon :: r.1, r.2)

/-- JVMTI callback for the GarbageCollectionFinish event (`endGC`, lines
521-555). -/
def endGC (heap : Nat → Int) (s : AgentState) : AgentState :=
  if s.failed = false then
    let s := { s with interrupted := true }
    let r := fixupLoop s.do_balloon_mapping s.page_size heap s.balloons
    { s with
      balloons := r.1
      remaps := s.remaps ++ r.2
      gcNotifyQueue := s.gcNotifyQueue ++ [GCEvent.End] }
  else s

/-- The push of `Terminate` done by `vmDeath` (lines 511-514) and by
`Agent_OnUnload` (lines 664-667). -/
def pushTerminate (s : AgentState) : AgentState :=
  { s with gcNotifyQueue := s.gcNotifyQueue ++ [GCEvent.Terminate] }

/-! ## Agent thread (`agentThread`) -/

/-- The entry points of `MemoryManager` the agent thread calls. -/
inductive PolicyCall where
  | init
  | gcEnd
  | terminate
  deriving DecidableEq, Repr

/-- The locals `inited` and `skipped` of `agentThread` (lines 220-221) and the
trace of the calls it has made into `MemoryManager`. -/
structure WorkerState where
  inited : Int
  skipped : Int
  calls : List PolicyCall
  deriving DecidableEq, Repr

/-- The loop of lines 230-235. Its condition tests the `event` declared at
line 227; the `event` assigned at line 232 is a new local of the loop body, so
the tested one never changes. Returns the queue and `skipped` after the loop. -/
def skipLoop (event : GCEvent) (inited : Int) : List GCEvent → Int → List GCEvent × Int
  | [], skipped => ([], skipped)
  | front :: queue, skipped =>
    if event = GCEvent.End then
      skipLoop event inited queue (skipped + inited)
    else
      (front :: queue, skipped)

/-- One iteration of the loop of `agentThread` (lines 223-254), from the return
of `waitAgentMonitor`. `initResult` is what `MemoryManager.init` returns if it
is called. With an empty queue `front()` has no value, which is `none`. -/
def agentThreadIteration (initResult : Bool) (s : AgentState) (w : WorkerState) :
    Option (AgentState × WorkerState) :=
  match s.gcNotifyQueue with
  | [] => none
  | event :: queue =>
    let r := skipLoop event w.inited queue w.skipped
    let s := { s with gcNotifyQueue := r.1 }
    let w := { w with skipped := r.2 }
    if event = GCEvent.Init then
      let inited : Int := if initResult then 1 else 0
      some ({ s with failed := decide (inited = 0) },
            { w with inited := inited, calls := w.calls ++ [PolicyCall.init] })
    else if event = GCEvent.End ∧ w.inited ≠ 0 then
      some ({ s with interrupted := false },
            { w with calls := w.calls ++ [PolicyCall.gcEnd] })
    else if event = GCEvent.Terminate ∧ w.inited ≠ 0 then
      some ({ s with interrupted := false },
            { w with calls := w.calls ++ [PolicyCall.terminate] })
    else
      some (s, w)

/-! ## Agent options (`processAgentOptions`) -/

/-- The flags `processAgentOptions` sets: the statics `do_balloon_mapping`
(line 60), `use_sysout` (line 64) and `dump_all` (line 72), and the trace flag
behind `set_verbose`. -/
structure AgentFlags where
  do_balloon_mapping : Bool
  verbose : Bool
  use_sysout : Bool
  dump_all : Bool
  deriving DecidableEq, Repr

/-- Modelled from the spec: `set_verbose` of `balloonutil` is not among the
sources; the option `verbose` enables trace logging, which is the flag
`verbose`. -/
def set_verbose (f : AgentFlags) : AgentFlags :=
  { f with verbose := true }

/-- Conversion of an `int` to `size_t` (64 bits), as for the third argument of
`strncmp`. -/
def toSizeT (x : Int) : Nat :=
  (x % 18446744073709551616).toNat

/-- C `strchr(s, c)` for a character `c` other than NUL; a C string is the list
of its characters up to the terminating NUL. The result is the offset of the
first `c` from `s`, or `none` for a null pointer. -/
def strchr (s : List Char) (c : Char) : Option Nat :=
  match s with
  | [] => none
  | a :: rest => if a = c then some 0 else (strchr rest c).map (fun k => k + 1)

/-- C `strncmp(s1, s2, n)`: zero when the first `n` characters agree or both
strings end, in agreement, before that; otherwise the difference of the first
two characters that differ (a string that has ended reads as NUL). -/
def strncmp : List Char → List Char → Nat → Int
  | _, _, 0 => 0
  | [], [], _ + 1 => 0
  | [], b :: _, _ + 1 => 0 - (b.toNat : Int)
  | a :: _, [], _ + 1 => (a.toNat : Int)
  | a :: s1, b :: s2, n + 1 =>
    if a = b then strncmp s1 s2 n else (a.toNat : Int) - (b.toNat : Int)

/-- The loop of lines 564-586: `curr` is the rest of the option string, `none`
for a null pointer. Each iteration consumes at least one character or ends the
loop; `fuel` bounds the number of iterations, and `none` is returned if it
runs out. -/
def optionsLoop : Nat → Option (List Char) → AgentFlags → Option AgentFlags
  | _, none, f => some f
  | 0, some _, _ => none
  | fuel + 1, some curr, f =>
    let next := strchr curr ','
    let len : Int :=
      match next with
      | some k => toInt32 (k : Int)
      | none => toInt32 (curr.length : Int)
    let f :=
      if strncmp curr "map".toList (toSizeT len) = 0 then
        { f with do_balloon_mapping := true }
      else if strncmp curr "verbose".toList (toSizeT len) = 0 then
        set_verbose f
      else if strncmp curr "sysout".toList (toSizeT len) = 0 then
        { f with use_sysout := true }
      else if strncmp curr "all".toList (toSizeT len) = 0 then
        { f with dump_all := true }
      else f
    let curr :=
      match next with
      | some k => some (curr.drop (k + 1))
      | none => none
    optionsLoop fuel curr f

/-- Function `processAgentOptions` (lines 561-587) on the option string,
`none` for a null pointer. The loop runs at most once per character and once
more. -/
def processAgentOptions (options : Option (List Char)) (f : AgentFlags) :
    Option AgentFlags :=
  match options with
  | none => optionsLoop 0 none f
  | some s => optionsLoop (s.length + 1) (some s) f

/-- The flags as the statics initialise them (lines 60, 64, 72): all off. -/
def defaultFlags : AgentFlags :=
  { do_balloon_mapping := false, verbose := false, use_sysout := false, dump_all := false }

/-! ## Sequences of agent events -/

/-- What can happen to the agent once `vmInit` has run: a GC-finish
notification (with the raw addresses the heap then has), a push of
`Terminate`, or the agent thread being woken and running one iteration. -/
inductive AgentAction where
  | gcFinish (heap : Nat → Int)
  | terminatePush
  | workerIteration (initResult : Bool)

/-- The effect of one action on the statics and on the agent thread's locals.
An agent thread woken with an empty queue is left waiting. -/
def stepAction (x : AgentState × WorkerState) : AgentAction → AgentState × WorkerState
  | AgentAction.gcFinish heap => (endGC heap x.1, x.2)
  | AgentAction.terminatePush => (pushTerminate x.1, x.2)
  | AgentAction.workerIteration initResult =>
    match agentThreadIteration initResult x.1 x.2 with
    | some y => y
    | none => x

/-- The effect of a sequence of actions, first action first. -/
def runActions (x : AgentState × WorkerState) (acts : List AgentAction) :
    AgentState × WorkerState :=
  acts.foldl stepAction x

/-! ## Properties the theorems are stated with -/

/-- The value `x` is representable as a C `int`. -/
def fitsInt32 (x : Int) : Prop :=
  -2147483648 ≤ x ∧ x < 2147483648

/-- No conversion to `int` in lines 264-269 (304-309) changes the value it
converts: the data length `size - offset`, the adjustment `rem - page_size`
and the adjusted length are all representable. -/
def NoOverflow (page_size : Int) (balloon : BalloonType) : Prop :=
  fitsInt32 (balloon.size - balloon.offset)
  ∧ fitsInt32 (balloon.size - balloon.offset - page_size)
  ∧ page_size ≤ 2147483648

instance (page_size : Int) (balloon : BalloonType) :
    Decidable (NoOverflow page_size balloon) := by
  unfold NoOverflow fitsInt32
  infer_instance

/-- The live global references are exactly the references held by the entries
of the registry. -/
def RefsOwned (s : AgentState) : Prop :=
  ∀ h : Nat, h ∈ s.globalRefs ↔ h ∈ s.balloons.map BalloonType.globalRef

/-- The address `a` rounded up to the next multiple of `page_size`. -/
def roundUpToPage (page_size a : Int) : Int :=
  (a + page_size - 1) / page_size * page_size

/-- The pages of the byte range that starts at `rawRef + offset` and is `size`
bytes long, as the specification counts them: consecutive pages from the
rounded-up start, `floor ((rawRef + offset + size - start) / page_size)` of
them, none when that is negative. -/
def specPages (page_size : Int) (balloon : BalloonType) : List Int :=
  let start := roundUpToPage page_size (balloon.rawRef + balloon.offset)
  let count := (balloon.rawRef + balloon.offset + balloon.size - start) / page_size
  (List.range count.toNat).map (fun (i : Nat) => start + (i : Int) * page_size)

/-- The pages of the byte range that starts at `rawRef + offset` and ends at
`rawRef + size`, the end of the object: consecutive pages from the rounded-up
start, `floor ((rawRef + size - start) / page_size)` of them, none when that is
negative. -/
def dataPages (page_size : Int) (balloon : BalloonType) : List Int :=
  let start := roundUpToPage page_size (balloon.rawRef + balloon.offset)
  let count := (balloon.rawRef + balloon.size - start) / page_size
  (List.range count.toNat).map (fun (i : Nat) => start + (i : Int) * page_size)

/-! ## Concrete states used to run the definitions -/

/-- A balloon of 8192 bytes at address 65536 with its data at offset 16: with
4096-byte pages its data area holds the one whole page at 69632. -/
def sampleBalloon : BalloonType :=
  { globalRef := 1, rawRef := 65536, offset := 16, size := 8192 }

/-- A registration of an object of size 4096 with data offset 16, which moved
from 131072 to 196608 before the monitor was entered. -/
def sampleCall : RegisterCall :=
  { newGlobalRef := 2, objectSize := 4096, rawarray := 131088,
    rawRefBefore := 131072, rawRefLocked := 196608 }

/-- A state in which a GC has finished (`interrupted` set) and one balloon is
registered. -/
def interruptedState : AgentState :=
  { do_balloon_mapping := true, page_size := 4096, failed := false, interrupted := true,
    balloons := [sampleBalloon], gcNotifyQueue := [GCEvent.End], globalRefs := [1],
    remaps := [] }

/-- The state after `vmInit` with nothing registered and mapping enabled. -/
def emptyState : AgentState :=
  { do_balloon_mapping := true, page_size := 4096, failed := false, interrupted := false,
    balloons := [], gcNotifyQueue := [], globalRefs := [], remaps := [] }

/-- A balloon whose data area `[4096, 8176)` holds no whole 4096-byte page,
while the 4096 bytes from its data start are exactly the page at 4096. -/
def shortBalloon : BalloonType :=
  { globalRef := 3, rawRef := 4080, offset := 16, size := 4096 }

/-- A balloon whose data starts one byte past a page boundary. -/
def unalignedBalloon : BalloonType :=
  { globalRef := 4, rawRef := 4080, offset := 17, size := 4096 }

/-- The registration of a first object of 8192 bytes at 131072. -/
def firstCall : RegisterCall :=
  { newGlobalRef := 1, objectSize := 8192, rawarray := 131088,
    rawRefBefore := 131072, rawRefLocked := 131072 }

/-- The registration of a second object of 8192 bytes at 196608. -/
def secondCall : RegisterCall :=
  { newGlobalRef := 2, objectSize := 8192, rawarray := 196624,
    rawRefBefore := 196608, rawRefLocked := 196608 }

/-- The state after `firstCall` and `secondCall` with mapping enabled: two
balloons, the page of each (135168 and 200704) mapped to the zero file. -/
def twoBalloons : AgentState :=
  (registerBalloon (registerBalloon emptyState firstCall).2 secondCall).2

/-- The raw addresses after a collection that slid both objects down by 65536
bytes: the second object now lies where the first one was. -/
def slidHeap (globalRef : Nat) : Int :=
  if globalRef = 2 then 131072 else 65536

/-- The objects of two balloons do not overlap. -/
def objectsApart (a b : BalloonType) : Prop :=
  a.rawRef + a.size ≤ b.rawRef ∨ b.rawRef + b.size ≤ a.rawRef

instance (a b : BalloonType) : Decidable (objectsApart a b) := by
  unfold objectsApart
  infer_instance

/-- Memory in which no page has been remapped yet. -/
def allAnon (_ : Int) : Backing :=
  Backing.anon

/-- The locals of the agent thread when it starts (lines 220-221). -/
def workerStart : WorkerState :=
  { inited := 0, skipped := 0, calls := [] }

/-- The locals of the agent thread after `MemoryManager.init` returned true. -/
def workerInited : WorkerState :=
  { inited := 1, skipped := 0, calls := [PolicyCall.init] }

/-- The state with the given events queued and nothing registered. -/
def queuedState (events : List GCEvent) : AgentState :=
  { emptyState with gcNotifyQueue := events }

/-- The condition that holds from a failed init on: `failed` is set, `inited`
is zero and no `Init` is queued. -/
def Inert (x : AgentState × WorkerState) : Prop :=
  x.1.failed = true ∧ x.2.inited = 0 ∧ GCEvent.Init ∉ x.1.gcNotifyQueue

/-- A GC-finish notification, a `Terminate` push and two wake-ups of the
agent thread. -/
def laterActions : List AgentAction :=
  [AgentAction.gcFinish slidHeap, AgentAction.terminatePush,
   AgentAction.workerIteration true, AgentAction.workerIteration true]

/-! ## Sequences of registry operations -/

/-- The operations that act on the registry: the two native methods, the
GC-finish callback, and the agent thread clearing `interrupted` (lines 242 and
246). -/
inductive RegistryOp where
  | register (c : RegisterCall)
  | unregister
  | gcFinish (heap : Nat → Int)
  | clearInterrupted

/-- The value an operation returns, if it returns one, and the state after
it. `unregister_balloon` on an empty registry returns no value and changes
nothing. -/
def stepOp (s : AgentState) : RegistryOp → Option Bool × AgentState
  | RegistryOp.register c => (some (registerBalloon s c).1, (registerBalloon s c).2)
  | RegistryOp.unregister =>
    match unregister_balloon s with
    | some r => (some r.1, r.2)
    | none => (none, s)
  | RegistryOp.gcFinish heap => (none, endGC heap s)
  | RegistryOp.clearInterrupted => (none, { s with interrupted := false })

/-- The values returned by a sequence of operations, first operation first,
and the state after the last one. -/
def runOps (s : AgentState) : List RegistryOp → List (Option Bool) × AgentState
  | [] => ([], s)
  | op :: ops =>
    let r := stepOp s op
    let q := runOps r.2 ops
    (r.1 :: q.1, q.2)

/-- What identifies a registry entry apart from its cached address: the
reference, the data offset and the size. -/
def entryIdentity (b : BalloonType) : Nat × Int × Int :=
  (b.globalRef, b.offset, b.size)

/-- Two states agree on the flags `failed` and `interrupted`, on the event
queue, on the live references and on the registry up to cached addresses. -/
def SameBookkeeping (s t : AgentState) : Prop :=
  s.failed = t.failed
  ∧ s.interrupted = t.interrupted
  ∧ s.gcNotifyQueue = t.gcNotifyQueue
  ∧ s.globalRefs = t.globalRefs
  ∧ s.balloons.map entryIdentity = t.balloons.map entryIdentity

instance (s t : AgentState) : Decidable (SameBookkeeping s t) := by
  unfold SameBookkeeping
  infer_instance

/-- The state after `vmInit` with nothing registered and mapping disabled. -/
def unmappedState : AgentState :=
  { emptyState with do_balloon_mapping := false }

/-- Two registrations, a collection and two unregistrations. -/
def sampleOps : List RegistryOp :=
  [RegistryOp.register firstCall, RegistryOp.register secondCall,
   RegistryOp.gcFinish slidHeap, RegistryOp.unregister,
   RegistryOp.clearInterrupted, RegistryOp.unregister]

/-! ## Interrupted operations and the register/unregister round trip -/

/-- C1: when `interrupted` is set at the moment the monitor is entered,
`registerBalloon` returns true, `unregister_balloon` on a non-empty registry
returns true, and both leave the registry and the remap trace as they were,
whatever `do_balloon_mapping` is. -/
theorem interrupted_operations_are_noops (s : AgentState) (c : RegisterCall)
    (hint : s.interrupted = true) :
    ((registerBalloon s c).1 = true
      ∧ (registerBalloon s c).2.balloons = s.balloons
      ∧ (registerBalloon s c).2.remaps = s.remaps)
    ∧ (s.balloons ≠ [] →
        ∃ s', unregister_balloon s = some (true, s')
          ∧ s'.balloons = s.balloons ∧ s'.remaps = s.remaps) := by
  refine ⟨?_, ?_⟩
  · simp [registerBalloon, hint]
  · intro hne
    cases hb : s.balloons with
    | nil => exact absurd hb hne
    | cons b rest => simp [unregister_balloon, hb, hint]

/-- C1 at `interruptedState` (mapping enabled, one balloon registered). -/
theorem interrupted_operations_are_noops_witness :
    interruptedState.interrupted = true ∧ interruptedState.balloons ≠ [] ∧
    ((registerBalloon interruptedState sampleCall).1 = true
      ∧ (registerBalloon interruptedState sampleCall).2.balloons = interruptedState.balloons
      ∧ (registerBalloon interruptedState sampleCall).2.remaps = interruptedState.remaps)
    ∧ (∃ s', unregister_balloon interruptedState = some (true, s')
          ∧ s'.balloons = interruptedState.balloons
          ∧ s'.remaps = interruptedState.remaps) :=
  ⟨rfl, by decide,
    (interrupted_operations_are_noops interruptedState sampleCall rfl).1,
    (interrupted_operations_are_noops interruptedState sampleCall rfl).2 (by decide)⟩

/-- C2: when `interrupted` is clear, `registerBalloon` returns false and puts
an entry for the new reference in front of the registry, and the
`unregister_balloon` that follows returns false, removes that entry, deletes
that reference and so gives back the registry and the reference table the
register started from; from the empty registry there is one entry in between
and none at the end. -/
theorem register_unregister_round_trip (s : AgentState) (c : RegisterCall)
    (hint : s.interrupted = false) :
    (registerBalloon s c).1 = false
    ∧ (∃ entry, (registerBalloon s c).2.balloons = entry :: s.balloons
        ∧ entry.globalRef = c.newGlobalRef ∧ entry.size = c.objectSize
        ∧ (registerBalloon s c).2.globalRefs = entry.globalRef :: s.globalRefs)
    ∧ (registerBalloon s c).2.interrupted = false
    ∧ (∃ s', unregister_balloon (registerBalloon s c).2 = some (false, s')
        ∧ s'.balloons = s.balloons ∧ s'.globalRefs = s.globalRefs
        ∧ (s.balloons = [] →
            (registerBalloon s c).2.balloons.length = 1 ∧ s'.balloons = [])) := by
  cases hm : s.do_balloon_mapping <;>
    simp [registerBalloon, unregister_balloon, hint, hm]

/-- C2 at `emptyState`: register an object of size 4096 with offset 16, then
unregister. -/
theorem register_unregister_round_trip_witness :
    emptyState.interrupted = false
    ∧ (registerBalloon emptyState sampleCall).1 = false
    ∧ (registerBalloon emptyState sampleCall).2.balloons.length = 1
    ∧ (∃ s', unregister_balloon (registerBalloon emptyState sampleCall).2 = some (false, s')
        ∧ s'.balloons = []) := by
  obtain ⟨h1, _, _, s', h2, _, _, h3⟩ :=
    register_unregister_round_trip emptyState sampleCall rfl
  exact ⟨rfl, h1, (h3 rfl).1, s', h2, (h3 rfl).2⟩

/-! ## Ownership of the global references -/

/-- C3: the code run where the claim fails. In `interruptedState` the live
references are those of the registry. An interrupted `registerBalloon` leaves
the reference it made (2) alive although no entry holds it; an interrupted
`unregister_balloon` keeps the entry in the registry and deletes the reference
(1) that entry holds. -/
theorem interrupted_calls_break_reference_ownership :
    RefsOwned interruptedState
    ∧ (registerBalloon interruptedState sampleCall).1 = true
    ∧ (registerBalloon interruptedState sampleCall).2.balloons = [sampleBalloon]
    ∧ (registerBalloon interruptedState sampleCall).2.globalRefs = [2, 1]
    ∧ ¬ RefsOwned (registerBalloon interruptedState sampleCall).2
    ∧ (∃ s', unregister_balloon interruptedState = some (true, s')
        ∧ s'.balloons = [sampleBalloon] ∧ s'.globalRefs = [] ∧ ¬ RefsOwned s') := by
  refine ⟨?_, by decide, by decide, by decide, ?_, ?_⟩
  · intro h
    simp [interruptedState, sampleBalloon]
  · intro h
    have h2 := (h 2).1 (by decide)
    revert h2
    decide
  · refine ⟨_, rfl, by decide, by decide, ?_⟩
    intro h
    have h1 := (h 1).2 (by decide)
    revert h1
    decide

/-! ## Page arithmetic -/

theorem toInt32_of_fits (x : Int) (h : fitsInt32 x) : toInt32 x = x := by
  unfold fitsInt32 at h
  unfold toInt32
  omega

theorem tdiv_neg_eq (x d : Int) (hx : x < 0) (hd : 0 < d) :
    Int.tdiv x d = -((-x) / d) := by
  have h1 : Int.tdiv x d = -(Int.tdiv (-x) d) := by
    rw [Int.neg_tdiv, neg_neg]
  rw [h1, Int.tdiv_eq_ediv (by omega) hd.le]

theorem tdiv_fits (x d : Int) (hd : 0 < d) (h : fitsInt32 x) : fitsInt32 (Int.tdiv x d) := by
  unfold fitsInt32 at *
  rcases lt_or_le x 0 with hx | hx
  · rw [tdiv_neg_eq x d hx hd]
    have h1 : 0 ≤ (-x) / d := Int.ediv_nonneg (by omega) hd.le
    have h2 : (-x) / d ≤ -x := Int.ediv_le_self d (by omega)
    omega
  · rw [Int.tdiv_eq_ediv hx hd.le]
    have h1 : 0 ≤ x / d := Int.ediv_nonneg hx hd.le
    have h2 : x / d ≤ x := Int.ediv_le_self d hx
    omega

theorem tdiv_toNat (x d : Int) (hd : 0 < d) : (Int.tdiv x d).toNat = (x / d).toNat := by
  rcases lt_or_le x 0 with hx | hx
  · rw [tdiv_neg_eq x d hx hd]
    have h1 : 0 ≤ (-x) / d := Int.ediv_nonneg (by omega) hd.le
    have h2 : x / d < 0 := Int.ediv_neg' hx hd
    omega
  · rw [Int.tdiv_eq_ediv hx hd.le]

/-- What lines 262-269 compute when no conversion overflows: the first page
starts at the multiple of the page size in `[start, start + page_size)`, and
the page count is the truncated quotient of the distance from there to
`rawRef + size`. -/
theorem alignedRange_exact (page_size : Int) (balloon : BalloonType)
    (hps : 0 < page_size) (hstart : 0 ≤ balloon.rawRef + balloon.offset)
    (hfit : NoOverflow page_size balloon) :
    page_size ∣ (alignedRange page_size balloon).1
    ∧ balloon.rawRef + balloon.offset ≤ (alignedRange page_size balloon).1
    ∧ (alignedRange page_size balloon).1 < balloon.rawRef + balloon.offset + page_size
    ∧ (alignedRange page_size balloon).2
        = Int.tdiv (balloon.rawRef + balloon.size - (alignedRange page_size balloon).1)
            page_size := by
  obtain ⟨hf1, hf2, hf3⟩ := hfit
  have hrem : Int.tmod (balloon.rawRef + balloon.offset) page_size
      = (balloon.rawRef + balloon.offset) % page_size := Int.tmod_eq_emod hstart hps.le
  have hr0 : 0 ≤ (balloon.rawRef + balloon.offset) % page_size :=
    Int.emod_nonneg _ (ne_of_gt hps)
  have hr1 : (balloon.rawRef + balloon.offset) % page_size < page_size :=
    Int.emod_lt_of_pos _ hps
  have hdecomp := Int.emod_add_ediv (balloon.rawRef + balloon.offset) page_size
  unfold alignedRange
  simp only [hrem]
  by_cases hz : (balloon.rawRef + balloon.offset) % page_size = 0
  · simp only [hz, ne_eq, not_true_eq_false, if_false]
    rw [toInt32_of_fits _ hf1, toInt32_of_fits _ (tdiv_fits _ _ hps hf1)]
    refine ⟨Int.dvd_of_emod_eq_zero hz, le_refl _, by omega, ?_⟩
    congr 1
    ring
  · simp only [ne_eq, hz, not_false_eq_true, if_true]
    have hadj : fitsInt32 ((balloon.rawRef + balloon.offset) % page_size - page_size) := by
      unfold fitsInt32 at *
      omega
    have hlen : fitsInt32 (balloon.size - balloon.offset
        + ((balloon.rawRef + balloon.offset) % page_size - page_size)) := by
      unfold fitsInt32 at *
      omega
    rw [toInt32_of_fits _ hf1, toInt32_of_fits _ hadj,
      toInt32_of_fits _ (tdiv_fits _ _ hps hlen)]
    refine ⟨?_, by omega, by omega, ?_⟩
    · refine ⟨(balloon.rawRef + balloon.offset) / page_size + 1, ?_⟩
      rw [mul_add, mul_one]
      omega
    · congr 1
      ring

/-- The loop remaps `n` consecutive pages from `paddr`. -/
theorem remapLoop_eq_map (op : Int → PageOp) (page_size : Int) (n : Nat) (paddr : Int) :
    remapLoop op page_size n paddr
      = (List.range n).map (fun (i : Nat) => op (paddr + (i : Int) * page_size)) := by
  induction n generalizing paddr with
  | zero => rfl
  | succ n ih =>
    rw [remapLoop, ih, List.range_succ_eq_map, List.map_cons, List.map_map]
    congr 1
    · simp
    · apply List.map_congr_left
      intro i _
      simp only [Function.comp, Nat.succ_eq_add_one]
      congr 1
      push_cast
      ring

theorem mem_remapLoop (op : Int → PageOp) (page_size : Int) (n : Nat) (paddr : Int)
    (x : PageOp) :
    x ∈ remapLoop op page_size n paddr ↔ ∃ i : Nat, i < n ∧ x = op (paddr + i * page_size) := by
  rw [remapLoop_eq_map]
  simp only [List.mem_map, List.mem_range]
  constructor
  · rintro ⟨i, hi, rfl⟩
    exact ⟨i, hi, rfl⟩
  · rintro ⟨i, hi, rfl⟩
    exact ⟨i, hi, rfl⟩

/-- Every page either remap touches is a whole page of the data area
`[rawRef + offset, rawRef + size)`. -/
theorem remapped_page_in_data_area (page_size : Int) (balloon : BalloonType)
    (hps : 0 < page_size) (hstart : 0 ≤ balloon.rawRef + balloon.offset)
    (hfit : NoOverflow page_size balloon) (op : PageOp)
    (hop : op ∈ unmap_balloon page_size balloon ∨ op ∈ map_balloon page_size balloon) :
    page_size ∣ op.addr
    ∧ balloon.rawRef + balloon.offset ≤ op.addr
    ∧ op.addr + page_size ≤ balloon.rawRef + balloon.size := by
  obtain ⟨hdvd, hlo, _, hlen⟩ := alignedRange_exact page_size balloon hps hstart hfit
  have key : ∀ i : Nat, i < (alignedRange page_size balloon).2.toNat →
      page_size ∣ (alignedRange page_size balloon).1 + i * page_size
      ∧ balloon.rawRef + balloon.offset ≤ (alignedRange page_size balloon).1 + i * page_size
      ∧ (alignedRange page_size balloon).1 + i * page_size + page_size
          ≤ balloon.rawRef + balloon.size := by
    intro i hi
    rw [hlen, tdiv_toNat _ _ hps] at hi
    have hi2 : ((i : Int) + 1) ≤
        (balloon.rawRef + balloon.size - (alignedRange page_size balloon).1) / page_size := by
      have := Int.lt_toNat.1 hi
      omega
    have hmul := (Int.le_ediv_iff_mul_le hps).1 hi2
    have hnn : 0 ≤ (i : Int) * page_size := mul_nonneg (Int.ofNat_nonneg i) hps.le
    refine ⟨Dvd.dvd.add hdvd (Dvd.intro_left _ rfl), by omega, ?_⟩
    have : ((i : Int) + 1) * page_size = i * page_size + page_size := by ring
    omega
  rcases hop with hop | hop
  · obtain ⟨i, hi, rfl⟩ := (mem_remapLoop _ _ _ _ _).1 hop
    exact key i hi
  · obtain ⟨i, hi, rfl⟩ := (mem_remapLoop _ _ _ _ _).1 hop
    exact key i hi

theorem alignedRange_start (page_size : Int) (balloon : BalloonType)
    (hps : 0 < page_size) (hstart : 0 ≤ balloon.rawRef + balloon.offset)
    (hfit : NoOverflow page_size balloon) :
    (alignedRange page_size balloon).1
      = roundUpToPage page_size (balloon.rawRef + balloon.offset) := by
  obtain ⟨hdvd, hlo, hhi, _⟩ := alignedRange_exact page_size balloon hps hstart hfit
  unfold roundUpToPage
  have h1 := Int.ediv_mul_le (balloon.rawRef + balloon.offset + page_size - 1) (ne_of_gt hps)
  have h2 := Int.lt_ediv_add_one_mul_self (balloon.rawRef + balloon.offset + page_size - 1) hps
  rw [add_mul, one_mul] at h2
  have hd : page_size ∣ (alignedRange page_size balloon).1
      - (balloon.rawRef + balloon.offset + page_size - 1) / page_size * page_size :=
    Dvd.dvd.sub hdvd (Dvd.intro_left _ rfl)
  have habs : |(alignedRange page_size balloon).1
      - (balloon.rawRef + balloon.offset + page_size - 1) / page_size * page_size|
      < page_size := by
    rw [abs_lt]
    constructor <;> omega
  have := Int.eq_zero_of_abs_lt_dvd hd habs
  omega

theorem alignedRange_count (page_size : Int) (balloon : BalloonType)
    (hps : 0 < page_size) (hstart : 0 ≤ balloon.rawRef + balloon.offset)
    (hfit : NoOverflow page_size balloon) :
    (alignedRange page_size balloon).2.toNat
      = ((balloon.rawRef + balloon.size
          - roundUpToPage page_size (balloon.rawRef + balloon.offset)) / page_size).toNat := by
  obtain ⟨_, _, _, hlen⟩ := alignedRange_exact page_size balloon hps hstart hfit
  rw [hlen, tdiv_toNat _ _ hps, alignedRange_start page_size balloon hps hstart hfit]

/-! ## Alignment of the remapped pages -/

/-- C4: for a page size > 0, a base address >= 0 and a data offset >= 0, with
no conversion overflowing, every page `unmap_balloon` or `map_balloon` remaps
starts at a multiple of the page size and lies inside
`[rawRef + offset, rawRef + offset + size)`; when that range holds no whole
page, or the computed length is zero or negative, neither remaps any page. -/
theorem remapped_pages_contained (page_size : Int) (balloon : BalloonType)
    (hps : 0 < page_size) (hbase : 0 ≤ balloon.rawRef) (hoff : 0 ≤ balloon.offset)
    (hfit : NoOverflow page_size balloon) :
    (∀ op, op ∈ unmap_balloon page_size balloon ∨ op ∈ map_balloon page_size balloon →
        page_size ∣ op.addr
        ∧ balloon.rawRef + balloon.offset ≤ op.addr
        ∧ op.addr + page_size ≤ balloon.rawRef + balloon.offset + balloon.size)
    ∧ ((¬ ∃ p, page_size ∣ p ∧ balloon.rawRef + balloon.offset ≤ p
            ∧ p + page_size ≤ balloon.rawRef + balloon.offset + balloon.size) →
        unmap_balloon page_size balloon = [] ∧ map_balloon page_size balloon = [])
    ∧ ((alignedRange page_size balloon).2 ≤ 0 →
        unmap_balloon page_size balloon = [] ∧ map_balloon page_size balloon = []) := by
  have hall : ∀ op, op ∈ unmap_balloon page_size balloon ∨ op ∈ map_balloon page_size balloon →
      page_size ∣ op.addr
      ∧ balloon.rawRef + balloon.offset ≤ op.addr
      ∧ op.addr + page_size ≤ balloon.rawRef + balloon.offset + balloon.size := by
    intro op hop
    obtain ⟨h1, h2, h3⟩ :=
      remapped_page_in_data_area page_size balloon hps (by omega) hfit op hop
    exact ⟨h1, h2, by omega⟩
  refine ⟨hall, ?_, ?_⟩
  · intro hnone
    constructor
    · apply List.eq_nil_iff_forall_not_mem.2
      intro op hop
      exact hnone ⟨op.addr, hall op (Or.inl hop)⟩
    · apply List.eq_nil_iff_forall_not_mem.2
      intro op hop
      exact hnone ⟨op.addr, hall op (Or.inr hop)⟩
  · intro hlen
    have hz : (alignedRange page_size balloon).2.toNat = 0 := Int.toNat_eq_zero.2 hlen
    simp [unmap_balloon, map_balloon, hz, remapLoop]

/-- C4 at `sampleBalloon`, whose one remapped page is the page at 69632, at
`unalignedBalloon`, whose range `[4097, 8193)` holds no whole page, and at
`shortBalloon`, whose computed length is 0. -/
theorem remapped_pages_contained_witness :
    ((0 : Int) < 4096 ∧ 0 ≤ sampleBalloon.rawRef ∧ 0 ≤ sampleBalloon.offset
      ∧ NoOverflow 4096 sampleBalloon
      ∧ PageOp.zeroMap 69632 ∈ unmap_balloon 4096 sampleBalloon
      ∧ ((4096 : Int) ∣ (PageOp.zeroMap 69632).addr
          ∧ sampleBalloon.rawRef + sampleBalloon.offset ≤ (PageOp.zeroMap 69632).addr
          ∧ (PageOp.zeroMap 69632).addr + 4096
              ≤ sampleBalloon.rawRef + sampleBalloon.offset + sampleBalloon.size))
    ∧ (NoOverflow 4096 unalignedBalloon
      ∧ unmap_balloon 4096 unalignedBalloon = []
      ∧ map_balloon 4096 unalignedBalloon = [])
    ∧ (NoOverflow 4096 shortBalloon
      ∧ (alignedRange 4096 shortBalloon).2 ≤ 0
      ∧ unmap_balloon 4096 shortBalloon = []
      ∧ map_balloon 4096 shortBalloon = []) :=
  ⟨⟨by decide, by decide, by decide, by decide, by decide,
      (remapped_pages_contained 4096 sampleBalloon (by decide) (by decide) (by decide)
        (by decide)).1 (PageOp.zeroMap 69632) (Or.inl (by decide))⟩,
    ⟨by decide,
      (remapped_pages_contained 4096 unalignedBalloon (by decide) (by decide) (by decide)
        (by decide)).2.1 (by
          rintro ⟨p, ⟨k, rfl⟩, h1, h2⟩
          simp only [unalignedBalloon] at h1 h2
          omega)⟩,
    by decide, by decide,
    (remapped_pages_contained 4096 shortBalloon (by decide) (by decide) (by decide)
      (by decide)).2.2 (by decide)⟩

/-- C5, as stated, fails at `shortBalloon` with 4096-byte pages: the range of
`size` bytes from `rawRef + offset` is exactly the page at 4096, which the
claim counts, and neither remap touches it. -/
theorem size_long_range_not_remapped :
    specPages 4096 shortBalloon = [4096]
    ∧ unmap_balloon 4096 shortBalloon = []
    ∧ map_balloon 4096 shortBalloon = []
    ∧ (unmap_balloon 4096 shortBalloon).map PageOp.addr ≠ specPages 4096 shortBalloon
    ∧ (map_balloon 4096 shortBalloon).map PageOp.addr ≠ specPages 4096 shortBalloon := by
  decide

/-- C5 amended: the byte range starts at `rawRef + offset` and ends at
`rawRef + size`. For a page size > 0 and a start address >= 0, with no
conversion overflowing, the pages remapped are exactly the consecutive pages
from the rounded-up start, `floor ((rawRef + size - start) / page_size)` of
them (none when that is negative), and every whole page of the range is among
them. -/
theorem remapped_pages_are_data_pages (page_size : Int) (balloon : BalloonType)
    (hps : 0 < page_size) (hstart : 0 ≤ balloon.rawRef + balloon.offset)
    (hfit : NoOverflow page_size balloon) :
    unmap_balloon page_size balloon = (dataPages page_size balloon).map PageOp.zeroMap
    ∧ map_balloon page_size balloon = (dataPages page_size balloon).map PageOp.anonMap
    ∧ (∀ p, page_size ∣ p → balloon.rawRef + balloon.offset ≤ p →
        p + page_size ≤ balloon.rawRef + balloon.size → p ∈ dataPages page_size balloon) := by
  have hs := alignedRange_start page_size balloon hps hstart hfit
  have hc := alignedRange_count page_size balloon hps hstart hfit
  obtain ⟨_, _, hhi, _⟩ := alignedRange_exact page_size balloon hps hstart hfit
  refine ⟨?_, ?_, ?_⟩
  · simp only [unmap_balloon, dataPages, remapLoop_eq_map, hs, hc, List.map_map]
    rfl
  · simp only [map_balloon, dataPages, remapLoop_eq_map, hs, hc, List.map_map]
    rfl
  · rintro p ⟨k, rfl⟩ hlo hend
    rw [hs] at hhi
    have hrd : page_size ∣ roundUpToPage page_size (balloon.rawRef + balloon.offset) :=
      Dvd.intro_left _ rfl
    obtain ⟨j, hj⟩ := hrd
    have hkj : j ≤ k := by
      by_contra hlt
      have h1 : k + 1 ≤ j := by omega
      have h2 : page_size * (k + 1) ≤ page_size * j :=
        mul_le_mul_of_nonneg_left h1 hps.le
      rw [mul_add, mul_one] at h2
      omega
    have hcnt : (k - j) + 1 ≤ (balloon.rawRef + balloon.size
        - roundUpToPage page_size (balloon.rawRef + balloon.offset)) / page_size := by
      rw [Int.le_ediv_iff_mul_le hps, hj]
      have : (k - j + 1) * page_size = page_size * k + page_size - page_size * j := by ring
      omega
    simp only [dataPages, List.mem_map, List.mem_range]
    refine ⟨(k - j).toNat, ?_, ?_⟩
    · rw [Int.lt_toNat, Int.toNat_of_nonneg (by omega)]
      omega
    · rw [Int.toNat_of_nonneg (by omega), hj]
      ring

/-- C5 amended, at `sampleBalloon`: one page, the page at 69632. -/
theorem remapped_pages_are_data_pages_witness :
    (0 : Int) < 4096 ∧ 0 ≤ sampleBalloon.rawRef + sampleBalloon.offset
    ∧ NoOverflow 4096 sampleBalloon
    ∧ dataPages 4096 sampleBalloon = [69632]
    ∧ unmap_balloon 4096 sampleBalloon = (dataPages 4096 sampleBalloon).map PageOp.zeroMap
    ∧ map_balloon 4096 sampleBalloon = (dataPages 4096 sampleBalloon).map PageOp.anonMap
    ∧ 69632 ∈ dataPages 4096 sampleBalloon :=
  ⟨by decide, by decide, by decide, by decide,
    (remapped_pages_are_data_pages 4096 sampleBalloon (by decide) (by decide) (by decide)).1,
    (remapped_pages_are_data_pages 4096 sampleBalloon (by decide) (by decide) (by decide)).2.1,
    (remapped_pages_are_data_pages 4096 sampleBalloon (by decide) (by decide)
      (by decide)).2.2 69632 (by decide) (by decide) (by decide)⟩

/-! ## GC fixup -/

/-- The entries after the fixup loop are the entries before it, each with its
cached address replaced by the address the heap now has for its reference. -/
theorem fixupLoop_balloons (mapping : Bool) (page_size : Int) (heap : Nat → Int)
    (l : List BalloonType) :
    (fixupLoop mapping page_size heap l).1
      = l.map (fun b => { b with rawRef := heap b.globalRef }) := by
  induction l with
  | nil => rfl
  | cons b rest ih =>
    by_cases h : b.rawRef = heap b.globalRef
    · have hb : ({ b with rawRef := heap b.globalRef } : BalloonType) = b := by
        rw [← h]
      simp [fixupLoop, h, ih, hb]
    · simp [fixupLoop, h, ih]

/-- C6: after `endGC` runs with `failed` clear, the registry is the old
registry with each entry's cached address replaced by the live address of its
object: every cached address equals the live address, and the number of
entries, their order, references, offsets and sizes are unchanged, with
mapping enabled or disabled. -/
theorem fixup_updates_every_cached_address (heap : Nat → Int) (s : AgentState)
    (hfailed : s.failed = false) :
    (endGC heap s).balloons = s.balloons.map (fun b => { b with rawRef := heap b.globalRef })
    ∧ (∀ b ∈ (endGC heap s).balloons, b.rawRef = heap b.globalRef)
    ∧ (endGC heap s).balloons.length = s.balloons.length
    ∧ (endGC heap s).balloons.map BalloonType.globalRef
        = s.balloons.map BalloonType.globalRef
    ∧ (endGC heap s).balloons.map BalloonType.offset = s.balloons.map BalloonType.offset
    ∧ (endGC heap s).balloons.map BalloonType.size = s.balloons.map BalloonType.size := by
  have h : (endGC heap s).balloons
      = s.balloons.map (fun b => { b with rawRef := heap b.globalRef }) := by
    simp [endGC, hfailed, fixupLoop_balloons]
  refine ⟨h, ?_, ?_, ?_, ?_, ?_⟩
  · intro b hb
    rw [h] at hb
    obtain ⟨b0, _, rfl⟩ := List.mem_map.1 hb
    rfl
  · rw [h, List.length_map]
  · rw [h, List.map_map]
    rfl
  · rw [h, List.map_map]
    rfl
  · rw [h, List.map_map]
    rfl

/-- C6 at `twoBalloons` with the heap `slidHeap`. -/
theorem fixup_updates_every_cached_address_witness :
    twoBalloons.failed = false
    ∧ (endGC slidHeap twoBalloons).balloons
        = [{ globalRef := 2, rawRef := 131072, offset := 16, size := 8192 },
           { globalRef := 1, rawRef := 65536, offset := 16, size := 8192 }]
    ∧ (endGC slidHeap twoBalloons).balloons.length = twoBalloons.balloons.length :=
  ⟨by decide,
    (fixup_updates_every_cached_address slidHeap twoBalloons (by decide)).1.trans (by decide),
    (fixup_updates_every_cached_address slidHeap twoBalloons (by decide)).2.2.1⟩

/-- C7: the code run where the claim fails. Two balloons are registered with
mapping enabled, so the page of each is mapped to the zero file; the objects
do not overlap before the collection nor after it. The collection slides both
objects down, the second one to where the first one was. `endGC` handles the
second (front) entry first: it restores the page at 200704 and releases the
page at 135168, the whole page of that entry at its new address. It then
handles the first entry, restores its old page, which is that same page
135168, and releases 69632. After the pass the page at 135168 is privately
backed although it is the data page of the entry now cached at 131072. -/
theorem fixup_restores_page_of_entry_moved_onto_old_region :
    twoBalloons.balloons
        = [{ globalRef := 2, rawRef := 196608, offset := 16, size := 8192 },
           { globalRef := 1, rawRef := 131072, offset := 16, size := 8192 }]
    ∧ twoBalloons.do_balloon_mapping = true
    ∧ List.Pairwise objectsApart twoBalloons.balloons
    ∧ List.Pairwise objectsApart (endGC slidHeap twoBalloons).balloons
    ∧ pageBacking allAnon twoBalloons.remaps 135168 = Backing.zero
    ∧ pageBacking allAnon twoBalloons.remaps 200704 = Backing.zero
    ∧ (endGC slidHeap twoBalloons).balloons
        = [{ globalRef := 2, rawRef := 131072, offset := 16, size := 8192 },
           { globalRef := 1, rawRef := 65536, offset := 16, size := 8192 }]
    ∧ (endGC slidHeap twoBalloons).remaps
        = twoBalloons.remaps ++ [PageOp.anonMap 200704, PageOp.zeroMap 135168,
            PageOp.anonMap 135168, PageOp.zeroMap 69632]
    ∧ unmap_balloon 4096 { globalRef := 2, rawRef := 131072, offset := 16, size := 8192 }
        = [PageOp.zeroMap 135168]
    ∧ pageBacking allAnon (endGC slidHeap twoBalloons).remaps 135168 = Backing.anon := by
  decide

/-! ## Agent thread -/

/-- With `End` as the tested event the loop of lines 230-235 empties the queue
and adds `inited` to `skipped` once per event it pops. -/
theorem skipLoop_End (inited : Int) (queue : List GCEvent) (skipped : Int) :
    skipLoop GCEvent.End inited queue skipped = ([], skipped + queue.length * inited) := by
  induction queue generalizing skipped with
  | nil => simp [skipLoop]
  | cons e q ih =>
    simp only [skipLoop, if_true, ih, List.length_cons]
    congr 1
    push_cast
    ring

/-- The loop of lines 230-235 only removes events from the queue. -/
theorem skipLoop_subset (event : GCEvent) (inited : Int) (queue : List GCEvent)
    (skipped : Int) : ∀ e ∈ (skipLoop event inited queue skipped).1, e ∈ queue := by
  induction queue generalizing skipped with
  | nil => simp [skipLoop]
  | cons f q ih =>
    intro e he
    by_cases hev : event = GCEvent.End
    · simp only [skipLoop, hev, if_true] at he
      rw [hev] at ih
      exact List.mem_cons_of_mem _ (ih _ e he)
    · simp only [skipLoop, hev, if_false] at he
      exact he

/-- With `inited` zero the loop of lines 230-235 leaves `skipped` as it was. -/
theorem skipLoop_not_inited (event : GCEvent) (queue : List GCEvent) (skipped : Int) :
    (skipLoop event 0 queue skipped).2 = skipped := by
  induction queue generalizing skipped with
  | nil => simp [skipLoop]
  | cons f q ih =>
    by_cases hev : event = GCEvent.End
    · simp only [skipLoop, hev, if_true, add_zero]
      rw [hev] at ih
      exact ih skipped
    · simp [skipLoop, hev]

/-- C8: when init has succeeded (`inited` is 1) and the queue holds exactly
`n >= 1` events, all `End`, one iteration of the agent thread empties the
queue, calls `gcEnd` once and nothing else, and adds `n - 1` to `skipped`;
while `inited` is 0 an iteration, whatever is queued, leaves `skipped` as it
was. -/
theorem end_events_coalesce (n : Nat) (hn : 1 ≤ n) (initResult : Bool) (s : AgentState)
    (w : WorkerState) (hq : s.gcNotifyQueue = List.replicate n GCEvent.End) :
    (w.inited = 1 →
      agentThreadIteration initResult s w
        = some ({ s with gcNotifyQueue := [], interrupted := false },
                { w with skipped := w.skipped + ((n : Int) - 1)
                         calls := w.calls ++ [PolicyCall.gcEnd] }))
    ∧ (∀ (s2 : AgentState) (w2 : WorkerState), w2.inited = 0 → s2.gcNotifyQueue ≠ [] →
        ∃ r, agentThreadIteration initResult s2 w2 = some r ∧ r.2.skipped = w2.skipped) := by
  constructor
  · intro hin
    obtain ⟨m, rfl⟩ : ∃ m, n = m + 1 := ⟨n - 1, by omega⟩
    rw [List.replicate_succ] at hq
    simp [agentThreadIteration, hq, skipLoop_End, hin]
  · intro s2 w2 hin hne
    cases hq2 : s2.gcNotifyQueue with
    | nil => exact absurd hq2 hne
    | cons e q =>
      cases e <;> cases initResult <;>
        simp [agentThreadIteration, hq2, hin, skipLoop_not_inited]

/-- C8 at the queue `End, End, End` after a successful init: one `gcEnd` call
and a skip count of 2; and at the queue `End, End` before init: no call and
the skip count unchanged. -/
theorem end_events_coalesce_witness :
    (1 ≤ 3
      ∧ (queuedState [GCEvent.End, GCEvent.End, GCEvent.End]).gcNotifyQueue
          = List.replicate 3 GCEvent.End
      ∧ workerInited.inited = 1
      ∧ agentThreadIteration true (queuedState [GCEvent.End, GCEvent.End, GCEvent.End])
            workerInited
          = some (queuedState [],
                  { inited := 1, skipped := 2,
                    calls := [PolicyCall.init, PolicyCall.gcEnd] }))
    ∧ (workerStart.inited = 0
      ∧ (queuedState [GCEvent.End, GCEvent.End]).gcNotifyQueue ≠ []
      ∧ ∃ r, agentThreadIteration true (queuedState [GCEvent.End, GCEvent.End]) workerStart
            = some r ∧ r.2.skipped = workerStart.skipped) :=
  ⟨⟨by decide, by decide, by decide,
      ((end_events_coalesce 3 (by decide) true
        (queuedState [GCEvent.End, GCEvent.End, GCEvent.End]) workerInited (by decide)).1
          (by decide)).trans (by decide)⟩,
    by decide, by decide,
    (end_events_coalesce 3 (by decide) true
      (queuedState [GCEvent.End, GCEvent.End, GCEvent.End]) workerInited (by decide)).2
        (queuedState [GCEvent.End, GCEvent.End]) workerStart (by decide) (by decide)⟩

/-- C9: the code run where the claim fails. With `End, Init` queued the
iteration pops both events, acts on `End` and never calls `init`; with
`End, Terminate` queued after a successful init it pops both, calls `gcEnd`
and never calls `terminate`. In both runs the event behind `End` is gone from
the queue. -/
theorem end_in_front_swallows_the_next_event :
    agentThreadIteration true (queuedState [GCEvent.End, GCEvent.Init]) workerStart
        = some (queuedState [], workerStart)
    ∧ agentThreadIteration true (queuedState [GCEvent.End, GCEvent.Terminate]) workerInited
        = some (queuedState [],
                { inited := 1, skipped := 1, calls := [PolicyCall.init, PolicyCall.gcEnd] }) := by
  decide

/-! ## Init failure -/

theorem endGC_failed (heap : Nat → Int) (s : AgentState) (h : s.failed = true) :
    endGC heap s = s := by
  simp [endGC, h]

theorem stepAction_inert (x : AgentState × WorkerState) (a : AgentAction) (hx : Inert x) :
    Inert (stepAction x a) ∧ (stepAction x a).2.calls = x.2.calls := by
  obtain ⟨hf, hi, hq⟩ := hx
  cases a with
  | gcFinish heap =>
    have h : stepAction x (AgentAction.gcFinish heap) = x := by
      simp [stepAction, endGC_failed heap x.1 hf]
    rw [h]
    exact ⟨⟨hf, hi, hq⟩, rfl⟩
  | terminatePush =>
    refine ⟨⟨hf, hi, ?_⟩, rfl⟩
    simp [stepAction, pushTerminate, hq]
  | workerIteration initResult =>
    cases hqueue : x.1.gcNotifyQueue with
    | nil =>
      have h : stepAction x (AgentAction.workerIteration initResult) = x := by
        simp [stepAction, agentThreadIteration, hqueue]
      rw [h]
      exact ⟨⟨hf, hi, hq⟩, rfl⟩
    | cons e q =>
      rw [hqueue] at hq
      have he : e ≠ GCEvent.Init := fun h => hq (by simp [h])
      have hsub : GCEvent.Init ∉ (skipLoop e x.2.inited q x.2.skipped).1 := fun h =>
        hq (List.mem_cons_of_mem _ (skipLoop_subset _ _ _ _ _ h))
      have h : stepAction x (AgentAction.workerIteration initResult)
          = ({ x.1 with gcNotifyQueue := (skipLoop e x.2.inited q x.2.skipped).1 },
             { x.2 with skipped := (skipLoop e x.2.inited q x.2.skipped).2 }) := by
        simp [stepAction, agentThreadIteration, hqueue, he, hi]
      rw [h]
      exact ⟨⟨hf, hi, hsub⟩, rfl⟩

theorem runActions_inert (acts : List AgentAction) (x : AgentState × WorkerState)
    (hx : Inert x) :
    Inert (runActions x acts) ∧ (runActions x acts).2.calls = x.2.calls := by
  induction acts generalizing x with
  | nil => exact ⟨hx, rfl⟩
  | cons a rest ih =>
    obtain ⟨h1, h2⟩ := stepAction_inert x a hx
    obtain ⟨h3, h4⟩ := ih (stepAction x a) h1
    exact ⟨h3, h4.trans h2⟩

/-- C10: when the agent thread acts on the `Init` that `vmInit` queued (the
only `Init` in the queue) and `MemoryManager.init` returns false, `failed` is
set; after any later sequence of GC-finish notifications, `Terminate` pushes
and agent-thread iterations the agent thread has made no further call,
`failed` is still set, and a GC-finish notification leaves the whole state
(the `interrupted` flag, the registry, the queue and the remap trace) as it
is. -/
theorem init_failure_is_sticky (s0 : AgentState) (w0 : WorkerState) (rest : List GCEvent)
    (hq : s0.gcNotifyQueue = GCEvent.Init :: rest) (hone : GCEvent.Init ∉ rest)
    (acts : List AgentAction) (heap : Nat → Int) :
    ∃ s w, agentThreadIteration false s0 w0 = some (s, w)
      ∧ s.failed = true
      ∧ w.calls = w0.calls ++ [PolicyCall.init]
      ∧ (runActions (s, w) acts).1.failed = true
      ∧ (runActions (s, w) acts).2.calls = w.calls
      ∧ endGC heap (runActions (s, w) acts).1 = (runActions (s, w) acts).1 := by
  refine ⟨_, _, by simp [agentThreadIteration, hq]; exact ⟨rfl, rfl⟩, rfl, rfl, ?_⟩
  have hinert : Inert
      ({ s0 with gcNotifyQueue := (skipLoop GCEvent.Init w0.inited rest w0.skipped).1
                 failed := true },
       { w0 with skipped := (skipLoop GCEvent.Init w0.inited rest w0.skipped).2
                 inited := 0
                 calls := w0.calls ++ [PolicyCall.init] }) :=
    ⟨rfl, rfl, fun h => hone (skipLoop_subset _ _ _ _ _ h)⟩
  obtain ⟨⟨h1, _, _⟩, h2⟩ := runActions_inert acts _ hinert
  exact ⟨h1, h2, endGC_failed heap _ h1⟩

/-- C10 at the queue `Init, End` with a failing init, followed by a GC-finish
notification, a `Terminate` push and two agent-thread iterations. -/
theorem init_failure_is_sticky_witness :
    (queuedState [GCEvent.Init, GCEvent.End]).gcNotifyQueue = GCEvent.Init :: [GCEvent.End]
    ∧ GCEvent.Init ∉ [GCEvent.End]
    ∧ ∃ s w, agentThreadIteration false (queuedState [GCEvent.Init, GCEvent.End]) workerStart
          = some (s, w)
        ∧ s.failed = true
        ∧ w.calls = workerStart.calls ++ [PolicyCall.init]
        ∧ (runActions (s, w) laterActions).1.failed = true
        ∧ (runActions (s, w) laterActions).2.calls = w.calls
        ∧ endGC slidHeap (runActions (s, w) laterActions).1
            = (runActions (s, w) laterActions).1 :=
  ⟨rfl, by decide,
    init_failure_is_sticky (queuedState [GCEvent.Init, GCEvent.End]) workerStart
      [GCEvent.End] rfl (by decide) laterActions slidHeap⟩

/-! ## Agent options -/

/-- The offset `strchr` returns lies inside the string. -/
theorem strchr_lt (s : List Char) (c : Char) (k : Nat) (h : strchr s c = some k) :
    k < s.length := by
  induction s generalizing k with
  | nil => simp [strchr] at h
  | cons a rest ih =>
    by_cases hac : a = c
    · simp [strchr, hac] at h
      simp [← h]
    · simp only [strchr, hac, if_false, Option.map_eq_some'] at h
      obtain ⟨j, hj, rfl⟩ := h
      simpa using ih j hj

/-- The loop of `processAgentOptions` ends within one iteration per character
of the rest of the string and one more. -/
theorem optionsLoop_returns (fuel : Nat) (curr : List Char) (f : AgentFlags)
    (h : curr.length < fuel) : ∃ g, optionsLoop fuel (some curr) f = some g := by
  induction fuel generalizing curr f with
  | zero => omega
  | succ fuel ih =>
    cases hn : strchr curr ',' with
    | none => simp [optionsLoop, hn]
    | some k =>
      have hk := strchr_lt curr ',' k hn
      simp only [optionsLoop, hn]
      apply ih
      rw [List.length_drop]
      omega

/-- The function `processAgentOptions` returns for every option string. -/
theorem processAgentOptions_returns (options : Option (List Char)) (f : AgentFlags) :
    ∃ g, processAgentOptions options f = some g := by
  cases options with
  | none => exact ⟨f, by simp [processAgentOptions, optionsLoop]⟩
  | some s => exact optionsLoop_returns (s.length + 1) s f (by omega)

/-- C11: the code run where the claim fails. A null option string leaves all
flags off and the token `map` turns mapping on, as claimed. But the option
string `m`, the empty option string and the string `verbose,` (whose second
token is empty) all turn mapping on although none of their tokens is `map`,
and the string `s,a` turns on the sysout and all flags. -/
theorem option_prefix_enables_mapping :
    processAgentOptions none defaultFlags = some defaultFlags
    ∧ processAgentOptions (some "map".toList) defaultFlags
        = some { defaultFlags with do_balloon_mapping := true }
    ∧ processAgentOptions (some "m".toList) defaultFlags
        = some { defaultFlags with do_balloon_mapping := true }
    ∧ processAgentOptions (some "".toList) defaultFlags
        = some { defaultFlags with do_balloon_mapping := true }
    ∧ processAgentOptions (some "verbose,".toList) defaultFlags
        = some { defaultFlags with do_balloon_mapping := true, verbose := true }
    ∧ processAgentOptions (some "s,a".toList) defaultFlags
        = some { defaultFlags with use_sysout := true, dump_all := true } := by
  decide

/-! ## Mapping enabled and mapping disabled -/

/-- With mapping disabled the fixup loop issues no remap. -/
theorem fixupLoop_unmapped (page_size : Int) (heap : Nat → Int) (l : List BalloonType) :
    (fixupLoop false page_size heap l).2 = [] := by
  induction l with
  | nil => rfl
  | cons b rest ih =>
    by_cases h : b.rawRef = heap b.globalRef <;> simp [fixupLoop, h, ih]

theorem endGC_balloons (heap : Nat → Int) (s : AgentState) (hfailed : s.failed = false) :
    (endGC heap s).balloons
      = s.balloons.map (fun b => { b with rawRef := heap b.globalRef }) := by
  simp [endGC, hfailed, fixupLoop_balloons]

theorem stepOp_mapping (s : AgentState) (op : RegistryOp) :
    (stepOp s op).2.do_balloon_mapping = s.do_balloon_mapping := by
  cases op with
  | register c =>
    cases hi : s.interrupted <;> cases hm : s.do_balloon_mapping <;>
      simp [stepOp, registerBalloon, hi, hm]
  | unregister =>
    cases hb : s.balloons with
    | nil => simp [stepOp, unregister_balloon, hb]
    | cons b rest =>
      cases hi : s.interrupted <;> cases hm : s.do_balloon_mapping <;>
        simp [stepOp, unregister_balloon, hb, hi, hm]
  | gcFinish heap =>
    cases hf : s.failed <;> simp [stepOp, endGC, hf]
  | clearInterrupted => rfl

theorem stepOp_unmapped_remaps (t : AgentState) (op : RegistryOp)
    (ht : t.do_balloon_mapping = false) : (stepOp t op).2.remaps = t.remaps := by
  cases op with
  | register c =>
    cases hi : t.interrupted <;> simp [stepOp, registerBalloon, hi, ht]
  | unregister =>
    cases hb : t.balloons with
    | nil => simp [stepOp, unregister_balloon, hb]
    | cons b rest =>
      cases hi : t.interrupted <;> simp [stepOp, unregister_balloon, hb, hi, ht]
  | gcFinish heap =>
    cases hf : t.failed <;> simp [stepOp, endGC, hf, ht, fixupLoop_unmapped]
  | clearInterrupted => rfl

theorem stepOp_same (s t : AgentState) (op : RegistryOp) (h : SameBookkeeping s t) :
    (stepOp s op).1 = (stepOp t op).1
    ∧ SameBookkeeping (stepOp s op).2 (stepOp t op).2 := by
  obtain ⟨hf, hi, hq, hr, hb⟩ := h
  cases op with
  | register c =>
    cases hti : t.interrupted <;> cases hsm : s.do_balloon_mapping <;>
      cases htm : t.do_balloon_mapping <;>
      simp [stepOp, registerBalloon, SameBookkeeping, hi, hti, hsm, htm, hr, hf, hq, hb,
        entryIdentity]
  | unregister =>
    cases hsb : s.balloons with
    | nil =>
      rw [hsb] at hb
      have htb : t.balloons = [] := by simpa using hb.symm
      have h1 : stepOp s RegistryOp.unregister = (none, s) := by
        simp [stepOp, unregister_balloon, hsb]
      have h2 : stepOp t RegistryOp.unregister = (none, t) := by
        simp [stepOp, unregister_balloon, htb]
      rw [h1, h2]
      exact ⟨rfl, hf, hi, hq, hr, by simp [hsb, htb]⟩
    | cons b rest =>
      rw [hsb] at hb
      cases htb : t.balloons with
      | nil => simp [htb] at hb
      | cons b2 rest2 =>
        rw [htb] at hb
        simp only [List.map_cons, List.cons.injEq] at hb
        obtain ⟨hid, hrest⟩ := hb
        have href : b.globalRef = b2.globalRef := by
          simp only [entryIdentity, Prod.mk.injEq] at hid
          exact hid.1
        cases hti : t.interrupted <;> cases hsm : s.do_balloon_mapping <;>
          cases htm : t.do_balloon_mapping <;>
          simp [stepOp, unregister_balloon, SameBookkeeping, hsb, htb, hi, hti, hsm, htm, hr,
            href, hf, hq, hrest, hid]
  | gcFinish heap =>
    have hmap : ∀ l : List BalloonType,
        (l.map (fun b => ({ b with rawRef := heap b.globalRef } : BalloonType))).map
          entryIdentity = l.map entryIdentity := by
      intro l
      rw [List.map_map]
      rfl
    cases hft : t.failed with
    | true =>
      have hfs : s.failed = true := hf.trans hft
      have h1 : stepOp s (RegistryOp.gcFinish heap) = (none, s) := by
        simp [stepOp, endGC_failed heap s hfs]
      have h2 : stepOp t (RegistryOp.gcFinish heap) = (none, t) := by
        simp [stepOp, endGC_failed heap t hft]
      rw [h1, h2]
      exact ⟨rfl, hf, hi, hq, hr, hb⟩
    | false =>
      have hfs : s.failed = false := hf.trans hft
      refine ⟨rfl, ?_, ?_, ?_, ?_, ?_⟩
      · simp [stepOp, endGC, hfs, hft]
      · simp [stepOp, endGC, hfs, hft]
      · simp [stepOp, endGC, hfs, hft, hq]
      · simp [stepOp, endGC, hfs, hft, hr]
      · show (endGC heap s).balloons.map entryIdentity
            = (endGC heap t).balloons.map entryIdentity
        rw [endGC_balloons heap s hfs, endGC_balloons heap t hft, hmap, hmap, hb]
  | clearInterrupted =>
    exact ⟨rfl, hf, rfl, hq, hr, hb⟩

theorem stepOp_balloons (s t : AgentState) (op : RegistryOp) (h : SameBookkeeping s t)
    (hb : s.balloons = t.balloons)
    (hc : ∀ c, op = RegistryOp.register c → c.rawRefBefore = c.rawRefLocked) :
    (stepOp s op).2.balloons = (stepOp t op).2.balloons := by
  obtain ⟨hf, hi, _, _, _⟩ := h
  cases op with
  | register c =>
    have hcc := hc c rfl
    cases hti : t.interrupted <;> cases hsm : s.do_balloon_mapping <;>
      cases htm : t.do_balloon_mapping <;>
      simp [stepOp, registerBalloon, hi, hti, hsm, htm, hb, hcc]
  | unregister =>
    cases htb : t.balloons with
    | nil => simp [stepOp, unregister_balloon, hb, htb]
    | cons b rest =>
      cases hti : t.interrupted <;> cases hsm : s.do_balloon_mapping <;>
        cases htm : t.do_balloon_mapping <;>
        simp [stepOp, unregister_balloon, hi, hti, hsm, htm, hb, htb]
  | gcFinish heap =>
    cases hft : t.failed with
    | true =>
      have hfs : s.failed = true := hf.trans hft
      simp only [stepOp, endGC_failed heap s hfs, endGC_failed heap t hft, hb]
    | false =>
      have hfs : s.failed = false := hf.trans hft
      show (endGC heap s).balloons = (endGC heap t).balloons
      rw [endGC_balloons heap s hfs, endGC_balloons heap t hft, hb]
  | clearInterrupted => exact hb

theorem runOps_same (ops : List RegistryOp) (s t : AgentState) (h : SameBookkeeping s t) :
    (runOps s ops).1 = (runOps t ops).1
    ∧ SameBookkeeping (runOps s ops).2 (runOps t ops).2 := by
  induction ops generalizing s t with
  | nil => exact ⟨rfl, h⟩
  | cons op rest ih =>
    obtain ⟨h1, h2⟩ := stepOp_same s t op h
    obtain ⟨h3, h4⟩ := ih (stepOp s op).2 (stepOp t op).2 h2
    simp only [runOps]
    exact ⟨by rw [h1, h3], h4⟩

theorem runOps_unmapped_remaps (ops : List RegistryOp) (t : AgentState)
    (ht : t.do_balloon_mapping = false) : (runOps t ops).2.remaps = t.remaps := by
  induction ops generalizing t with
  | nil => rfl
  | cons op rest ih =>
    simp only [runOps]
    rw [ih (stepOp t op).2 ((stepOp_mapping t op).trans ht), stepOp_unmapped_remaps t op ht]

theorem runOps_balloons (ops : List RegistryOp) (s t : AgentState)
    (h : SameBookkeeping s t) (hb : s.balloons = t.balloons)
    (hc : ∀ c, RegistryOp.register c ∈ ops → c.rawRefBefore = c.rawRefLocked) :
    (runOps s ops).2.balloons = (runOps t ops).2.balloons := by
  induction ops generalizing s t with
  | nil => exact hb
  | cons op rest ih =>
    simp only [runOps]
    apply ih _ _ (stepOp_same s t op h).2
    · apply stepOp_balloons s t op h hb
      intro c hop
      exact hc c (by simp [hop])
    · intro c hmem
      exact hc c (List.mem_cons_of_mem _ hmem)

/-- C12, as stated, fails at the registration `sampleCall`, whose object moved
from 131072 to 196608 between the query before the lock and the monitor being
entered: on the same inputs both runs return false, but with mapping enabled
the entry caches the re-read address 196608 and with mapping disabled it
caches the address 131072 of the query before the lock, so the registries
differ. -/
theorem unmapped_register_keeps_prelock_address :
    SameBookkeeping emptyState unmappedState
    ∧ (runOps emptyState [RegistryOp.register sampleCall]).1 = [some false]
    ∧ (runOps unmappedState [RegistryOp.register sampleCall]).1 = [some false]
    ∧ (runOps emptyState [RegistryOp.register sampleCall]).2.balloons
        = [{ globalRef := 2, rawRef := 196608, offset := 16, size := 4096 }]
    ∧ (runOps unmappedState [RegistryOp.register sampleCall]).2.balloons
        = [{ globalRef := 2, rawRef := 131072, offset := 16, size := 4096 }]
    ∧ (runOps emptyState [RegistryOp.register sampleCall]).2.balloons
        ≠ (runOps unmappedState [RegistryOp.register sampleCall]).2.balloons := by
  decide

/-- C12 amended: run any sequence of register, unregister, GC-finish and
interrupted-clearing operations from a state with mapping enabled and from a
state with mapping disabled that agree on the bookkeeping. The values returned
are the same; the flags, the queue, the live references and the registry up
to cached addresses are the same afterwards; the run with mapping disabled
issues no remap; and the registries are equal, cached addresses included, when
they were equal at the start and every registration read the same address
before the lock and under the monitor. A register that is not interrupted
pushes the address re-read under the monitor when mapping is enabled and the
address of the query before the lock when mapping is disabled. -/
theorem mapping_flag_leaves_bookkeeping (s t : AgentState)
    (hs : s.do_balloon_mapping = true) (ht : t.do_balloon_mapping = false)
    (hsame : SameBookkeeping s t) (ops : List RegistryOp) :
    (runOps s ops).1 = (runOps t ops).1
    ∧ SameBookkeeping (runOps s ops).2 (runOps t ops).2
    ∧ (runOps t ops).2.remaps = t.remaps
    ∧ (s.balloons = t.balloons →
        (∀ c, RegistryOp.register c ∈ ops → c.rawRefBefore = c.rawRefLocked) →
        (runOps s ops).2.balloons = (runOps t ops).2.balloons)
    ∧ (∀ c : RegisterCall, s.interrupted = false →
        (registerBalloon s c).2.balloons
            = { globalRef := c.newGlobalRef, rawRef := c.rawRefLocked,
                offset := toInt32 (c.rawarray - c.rawRefBefore), size := c.objectSize }
              :: s.balloons
        ∧ (registerBalloon t c).2.balloons
            = { globalRef := c.newGlobalRef, rawRef := c.rawRefBefore,
                offset := toInt32 (c.rawarray - c.rawRefBefore), size := c.objectSize }
              :: t.balloons) := by
  refine ⟨(runOps_same ops s t hsame).1, (runOps_same ops s t hsame).2,
    runOps_unmapped_remaps ops t ht, runOps_balloons ops s t hsame, ?_⟩
  intro c hi
  have hti : t.interrupted = false := hsame.2.1.symm.trans hi
  constructor
  · simp [registerBalloon, hi, hs]
  · simp [registerBalloon, hti, ht]

/-- C12 amended, at `emptyState` (mapping enabled) and `unmappedState`
(mapping disabled) with the operations `sampleOps`, whose registrations read
the same address before the lock and under the monitor. -/
theorem mapping_flag_leaves_bookkeeping_witness :
    emptyState.do_balloon_mapping = true ∧ unmappedState.do_balloon_mapping = false
    ∧ SameBookkeeping emptyState unmappedState
    ∧ (runOps emptyState sampleOps).1 = (runOps unmappedState sampleOps).1
    ∧ (runOps unmappedState sampleOps).2.remaps = unmappedState.remaps
    ∧ (runOps emptyState sampleOps).2.balloons = (runOps unmappedState sampleOps).2.balloons
    ∧ (registerBalloon emptyState sampleCall).2.balloons
        = [{ globalRef := 2, rawRef := 196608, offset := 16, size := 4096 }]
    ∧ (registerBalloon unmappedState sampleCall).2.balloons
        = [{ globalRef := 2, rawRef := 131072, offset := 16, size := 4096 }] :=
  ⟨rfl, rfl, by decide,
    (mapping_flag_leaves_bookkeeping emptyState unmappedState rfl rfl (by decide)
      sampleOps).1,
    (mapping_flag_leaves_bookkeeping emptyState unmappedState rfl rfl (by decide)
      sampleOps).2.2.1,
    (mapping_flag_leaves_bookkeeping emptyState unmappedState rfl rfl (by decide)
      sampleOps).2.2.2.1 rfl (by
        intro c hc
        simp [sampleOps] at hc
        rcases hc with rfl | rfl <;> rfl),
    ((mapping_flag_leaves_bookkeeping emptyState unmappedState rfl rfl (by decide)
      sampleOps).2.2.2.2 sampleCall rfl).1.trans (by decide),
    ((mapping_flag_leaves_bookkeeping emptyState unmappedState rfl rfl (by decide)
      sampleOps).2.2.2.2 sampleCall rfl).2.trans (by decide)⟩

end Balloon
